import Mathlib

/-
Verification of the ECOMMERCE-PRODUCT-ASSISTANT agentic workflows.

This file gives a shallow embedding of the three LangGraph workflows of the
repository and proves properties of their control flow:

  * `agentic_rag_workflow.py`  (class `AgenticRAG`, "variant A" below):
    nodes Assistant / Retriever / WebSearch / Generator / Rewriter with the
    conditional edges built in `_build_workflow`, plus the public `run`
    entry point with its echo guard.
  * `agentic_workflow_with_mcp_websearch.py` ("variant B" / `Mcp` suffix):
    the variant with a `retry_count` field, a deterministic heuristic
    grader, and the fixed path Rewriter -> WebSearch -> Generator -> END.
  * `normal_generation_workflow.py` (`_nw` suffix): only its
    `vector_retriever` node is needed here.

External services (the chat model, the vector index, the Tavily search
service, the MCP tools) are opaque collaborators; they are modelled as
oracle records of pure functions, and every theorem quantifies over the
oracle.  All node bodies, routing lambdas, string heuristics and the price
regular expressions are translated from the Python source.

Conventions for the embedding:
  * a LangGraph message is represented by its `content` string; the
    `add_messages` channel appends the messages a node returns;
  * Python string methods are re-implemented over `List Char`
    (`pyLower`, `pyStrip`, `substr`, ...) restricted to ASCII behaviour,
    which is what every literal in the source exercises;
  * `re.search` for the four concrete price patterns of `web_search` is
    implemented directly; for these patterns greedy matching without
    backtracking coincides with Python's leftmost search because the
    character classes involved are pairwise disjoint.
-/

/-! ## Python-style string primitives -/

/-- `beginsWith hay needle`: does `hay` start with `needle`? (char lists) -/
def beginsWith : List Char → List Char → Bool
  | _, [] => true
  | [], _ :: _ => false
  | c :: hs, d :: ns => c == d && beginsWith hs ns

/-- `containsSeq hay needle`: does `needle` occur contiguously in `hay`?
Mirrors Python's `needle in hay` on strings (empty needle matches). -/
def containsSeq : List Char → List Char → Bool
  | [], ns => beginsWith [] ns
  | c :: hs, ns => beginsWith (c :: hs) ns || containsSeq hs ns

/-- Python `needle in hay` for strings. -/
def substr (needle hay : String) : Bool :=
  containsSeq hay.data needle.data

/-- Python `str.lower()` (ASCII range, which covers every use site). -/
def pyLower (s : String) : String :=
  ⟨s.data.map Char.toLower⟩

/-- The whitespace characters Python `str.strip()` removes (ASCII). -/
def isPySpace (c : Char) : Bool :=
  c == ' ' || c == '\t' || c == '\n' || c == '\r' || c == '\x0b' || c == '\x0c'

/-- Strip whitespace from both ends of a char list. -/
def pyStripList (l : List Char) : List Char :=
  ((l.dropWhile isPySpace).reverse.dropWhile isPySpace).reverse

/-- Python `str.strip()`. -/
def pyStrip (s : String) : String :=
  ⟨pyStripList s.data⟩

/-- Python `str.lstrip()`. -/
def pyLStrip (s : String) : String :=
  ⟨s.data.dropWhile isPySpace⟩

/-- Char-list core of `normalize`: keep `[a-zA-Z0-9]`, lowercase. -/
def normChars (l : List Char) : List Char :=
  (l.filter Char.isAlphanum).map Char.toLower

/-- The `normalize` helper of `_web_search_node` and `run`:
`re.sub(r'[^a-zA-Z0-9]', '', text).lower().strip()`.  The trailing
`.strip()` is a no-op (no whitespace survives the substitution), so the
embedding is the substitution followed by lowercasing. -/
def normalizeText (s : String) : String :=
  ⟨normChars s.data⟩

/-- `sep.join xs` (Python `str.join`). -/
def joinSep (sep : String) : List String → String
  | [] => ""
  | [x] => x
  | x :: y :: xs => x ++ sep ++ joinSep sep (y :: xs)

/-! ## Conversation state helpers -/

/-- `messages[0].content`; the state always holds at least one message. -/
def firstMsg : List String → String
  | [] => ""
  | m :: _ => m

/-- `messages[-1].content`. -/
def lastMsg : List String → String
  | [] => ""
  | [m] => m
  | _ :: m :: rest => lastMsg (m :: rest)

/-- Python `x in [msg.content for msg in msgs]` (list membership, `==`). -/
def msgsContain (msgs : List String) (x : String) : Bool :=
  msgs.any (fun m => m == x)

/-! ## Retrieved records and the context formatter -/

/-- A record returned by the vector index: the metadata fields used by
`_format_docs` (each may be missing) and the page content. -/
structure Doc where
  product_title : Option String
  price : Option String
  rating : Option String
  page_content : String
deriving DecidableEq, Repr

/-- One chunk of `_format_docs` (identical in all three workflow files). -/
def formatDoc (d : Doc) : String :=
  "Title: " ++ d.product_title.getD "N/A" ++
  "\nPrice: " ++ d.price.getD "N/A" ++
  "\nRating: " ++ d.rating.getD "N/A" ++
  "\nReviews:\n" ++ pyStrip d.page_content

/-- `_format_docs`: empty input gives the fixed literal, otherwise the
chunks joined by the fixed separator. -/
def format_docs (docs : List Doc) : String :=
  if docs = [] then "No relevant documents found."
  else joinSep "\n\n---\n\n" (docs.map formatDoc)

/-! ## Keyword routing and apology detection -/

/-- The product-intent keywords of `_ai_assistant`. -/
def intentKeywords : List String := ["price", "review", "product"]

/-- `any(word in last_message.lower() for word in [...])`. -/
def containsKeyword (s : String) : Bool :=
  intentKeywords.any (fun w => substr w (pyLower s))

/-- The apology/fallback phrase list of `_vector_retriever` / `_generate`. -/
def apologyPhrases : List String :=
  ["i am sorry", "cannot provide", "not included", "no relevant documents", "not found"]

/-- `any(phrase in text.lower() for phrase in apology_phrases)`. -/
def containsApology (s : String) : Bool :=
  apologyPhrases.any (fun p => substr p (pyLower s))

/-! ## The price patterns of `web_search`

The Python code tests, in order, the regular expressions
`\₹[\d,]+`, `Rs\.?\s*[\d,]+`, `INR\s*[\d,]+`, `\$[\d,]+` with
`re.search` and keeps `match.group(0)` of the first that hits. -/

/-- `[\d,]` (ASCII digits, as in every string the code handles). -/
def isDigitComma (c : Char) : Bool :=
  c.isDigit || c == ','

/-- Match `\₹[\d,]+` anchored at the head of the list. -/
def matchRupeeAt : List Char → Option (List Char)
  | '₹' :: rest =>
    let run := rest.takeWhile isDigitComma
    if run = [] then none else some ('₹' :: run)
  | _ => none

/-- Match `\$[\d,]+` anchored at the head of the list. -/
def matchDollarAt : List Char → Option (List Char)
  | '$' :: rest =>
    let run := rest.takeWhile isDigitComma
    if run = [] then none else some ('$' :: run)
  | _ => none

/-- Match `Rs\.?\s*[\d,]+` anchored at the head of the list.  Greedy
matching is faithful here: `.`, whitespace and `[\d,]` are disjoint
classes, so Python's backtracking never changes the outcome. -/
def matchRsAt : List Char → Option (List Char)
  | 'R' :: 's' :: rest =>
    let dotted := match rest with
      | '.' :: r => (['.'], r)
      | _ => (([] : List Char), rest)
    let sp := dotted.2.takeWhile isPySpace
    let rest₂ := dotted.2.dropWhile isPySpace
    let run := rest₂.takeWhile isDigitComma
    if run = [] then none else some ('R' :: 's' :: (dotted.1 ++ sp ++ run))
  | _ => none

/-- Match `INR\s*[\d,]+` anchored at the head of the list. -/
def matchINRAt : List Char → Option (List Char)
  | 'I' :: 'N' :: 'R' :: rest =>
    let sp := rest.takeWhile isPySpace
    let rest₂ := rest.dropWhile isPySpace
    let run := rest₂.takeWhile isDigitComma
    if run = [] then none else some ('I' :: 'N' :: 'R' :: (sp ++ run))
  | _ => none

/-- Leftmost search: try the anchored matcher at every position. -/
def searchPat (m : List Char → Option (List Char)) : List Char → Option (List Char)
  | [] => m []
  | c :: rest =>
    match m (c :: rest) with
    | some r => some r
    | none => searchPat m rest

/-- `re.search(pat, s)` returning `match.group(0)`. -/
def reSearch (m : List Char → Option (List Char)) (s : String) : Option String :=
  (searchPat m s.data).map (fun l => ⟨l⟩)

/-- The `for pat in price_patterns` loop of `web_search`: first pattern
(in the fixed order ₹, Rs, INR, $) whose search hits. -/
def extractPrice (content : String) : Option String :=
  match reSearch matchRupeeAt content with
  | some p => some p
  | none =>
    match reSearch matchRsAt content with
    | some p => some p
    | none =>
      match reSearch matchINRAt content with
      | some p => some p
      | none => reSearch matchDollarAt content

/-! ## The Tavily result scan of `web_search` -/

/-- One entry of `response['results']` when it is a dict; the three fields
`web_search` reads, each possibly missing (`dict.get` defaults). -/
structure TvRaw where
  title : Option String
  content : Option String
  url : Option String
deriving DecidableEq, Repr

/-- `f"Title: {title}\nPrice: {price}\nDetails: {content}\nSource: {url}"`. -/
def pricedFmt (title price content url : String) : String :=
  "Title: " ++ title ++ "\nPrice: " ++ price ++ "\nDetails: " ++ content ++ "\nSource: " ++ url

/-- `f"Title: {title}\nDetails: {content}\nSource: {url}"`. -/
def fallbackFmt (title content url : String) : String :=
  "Title: " ++ title ++ "\nDetails: " ++ content ++ "\nSource: " ++ url

/-- The `for result in results` loop.  A `none` entry is a non-dict result
(skipped with a warning).  `best : Option String` is `best_result`, set to
the first no-price result's fallback text (the stored text always starts
with "Title: ", so Python's `if not best_result` is exactly `best = none`). -/
def scanResults : List (Option TvRaw) → Option String → String
  | [], best => best.getD ""
  | Option.none :: rest, best => scanResults rest best
  | Option.some r :: rest, best =>
    let content := r.content.getD ""
    let title := r.title.getD "Web Result"
    let url := r.url.getD ""
    match extractPrice content with
    | some p => pricedFmt title p content url
    | none =>
      scanResults rest
        (match best with
         | some b => some b
         | none => some (fallbackFmt title content url))

/-- The usable (dict-shaped) results in order. -/
def usableOf (results : List (Option TvRaw)) : List TvRaw :=
  results.filterMap id

/-- Does a usable result contain a recognizable price token? -/
def hasPrice (r : TvRaw) : Bool :=
  (extractPrice (r.content.getD "")).isSome

/-! ## Variant A: `agentic_rag_workflow.py` -/

/-- The external collaborators of `AgenticRAG` (variant A), as pure
functions:
  * `directAnswer q` — the `prompt | llm | StrOutputParser` chain of the
    assistant's direct-answer branch on question `q`;
  * `retrieve q` — the vector index lookup;
  * `tavilyKey` — `os.getenv("TAVILY_API_KEY")` (`none` = unset/empty);
  * `tavilySearch q` — `client.search(q, max_results=10)`: either an
    exception message or the `results` list (a non-dict response is the
    empty list, matching the `isinstance` guard);
  * `generate ctx q` — the PRODUCT_BOT chain of `_generate`;
  * `rewriteLLM q` — `llm.invoke` in `_rewrite` (`.content`);
  * `gradeLLM q docs` — the grader chain of `_grade_documents`. -/
structure OracleA where
  directAnswer : String → String
  retrieve : String → List Doc
  tavilyKey : Option String
  tavilySearch : String → Except String (List (Option TvRaw))
  generate : String → String → String
  rewriteLLM : String → String
  gradeLLM : String → String → String

/-- `AgenticRAG.web_search` (variant A). -/
def web_search (o : OracleA) (query : String) : String :=
  match o.tavilyKey with
  | none => "Web search failed: API key not set."
  | some _ =>
    match o.tavilySearch (query ++ " price in India") with
    | Except.error e => "Web search failed: " ++ e
    | Except.ok results =>
      if results = [] then "" else scanResults results none

/-- `f"No price information found online for {query.strip()}."` — the
deterministic substitution text of `_web_search_node` and `run`. -/
def noInfoMsg (query : String) : String :=
  "No price information found online for " ++ pyStrip query ++ "."

/-- `_ai_assistant`: keyword queries emit the control message, others get
a direct model answer. -/
def ai_assistant (o : OracleA) (msgs : List String) : List String :=
  let last := lastMsg msgs
  if containsKeyword last then ["TOOL: retriever"]
  else [o.directAnswer last]

/-- `_vector_retriever` (variant A): query the index with the original
(first) message; empty results or an apology-bearing context escalate to
web search, otherwise the tagged context is appended. -/
def vector_retriever (o : OracleA) (msgs : List String) : List String :=
  let query := firstMsg msgs
  let docs := o.retrieve query
  if docs ≠ [] then
    let context := format_docs docs
    if containsApology context then ["TOOL: websearch", query]
    else ["[Source: Database]\n" ++ context]
  else ["TOOL: websearch", query]

/-- The two outcomes of a grader. -/
inductive Route where
  | generator
  | rewriter
deriving DecidableEq, Repr

/-- `_grade_documents` (variant A) — defined in the source but, as proved
below, never wired into the compiled graph. -/
def grade_documents (o : OracleA) (msgs : List String) : Route :=
  let score := o.gradeLLM (firstMsg msgs) (lastMsg msgs)
  if substr "yes" (pyLower score) then Route.generator else Route.rewriter

/-- The indicator detection of `_generate`: split `[Source: ...]` off the
context (dropping the tag and left-stripping the remainder). -/
def splitIndicator (docs : String) : String × String :=
  if beginsWith docs.data ("[Source: Database]" : String).data then
    ("[Source: Database]", pyLStrip ⟨docs.data.drop (("[Source: Database]" : String).data.length)⟩)
  else if beginsWith docs.data ("[Source: Web Search]" : String).data then
    ("[Source: Web Search]", pyLStrip ⟨docs.data.drop (("[Source: Web Search]" : String).data.length)⟩)
  else ("", docs)

/-- The `final_response` computed by `_generate` from the question and the
last message (context with optional indicator). -/
def genFinalResponse (o : OracleA) (question docsMsg : String) : String :=
  let p := splitIndicator docsMsg
  let response := o.generate p.2 question
  if p.1 = "" then response else p.1 ++ "\n" ++ response

/-- `_generate` (variant A): on an apology-bearing answer it appends the
web-search control message and the original question instead. -/
def generate_node (o : OracleA) (msgs : List String) : List String :=
  let question := firstMsg msgs
  let final := genFinalResponse o question (lastMsg msgs)
  if containsApology final then ["TOOL: websearch", question]
  else [final]

/-- `_rewrite` (variant A). -/
def rewrite_node (o : OracleA) (msgs : List String) : List String :=
  [o.rewriteLLM (firstMsg msgs)]

/-- `_web_search_node` (variant A): invalid or echoing results are
replaced with the deterministic no-information message. -/
def web_search_node (o : OracleA) (msgs : List String) : List String :=
  let query := firstMsg msgs
  let context := web_search o query
  let invalid :=
    (context == "") ||
    (normalizeText context == normalizeText query) ||
    substr "web search failed" (pyLower context) ||
    substr "no web results found" (pyLower context) ||
    substr "web search returned results, but none were usable" (pyLower context)
  if invalid then ["[Source: Web Search]\n" ++ noInfoMsg query]
  else ["[Source: Web Search]\n" ++ context]

/-- The graph nodes of variant A (`done` is END). -/
inductive NodeA where
  | assistant
  | retriever
  | websearch
  | generator
  | rewriter
  | done
deriving DecidableEq, Repr

/-- The conditional edge out of Assistant:
`"Retriever" if "TOOL" in state["messages"][-1].content else END`. -/
def routeFromAssistant (msgs : List String) : NodeA :=
  if substr "TOOL" (lastMsg msgs) then NodeA.retriever else NodeA.done

/-- The conditional edge out of Retriever: the lambda
`"WebSearch" if "TOOL: websearch" in [msg.content for msg in messages]
else "generator"` (the mapping also names "rewriter", but the lambda
never returns it). -/
def routeFromRetriever (msgs : List String) : NodeA :=
  if msgsContain msgs "TOOL: websearch" then NodeA.websearch else NodeA.generator

/-- One LangGraph super-step of variant A: run the current node, append
its messages, then follow the (conditional) edge on the updated state. -/
def stepA (o : OracleA) : NodeA × List String → NodeA × List String
  | (NodeA.assistant, msgs) =>
    let msgs' := msgs ++ ai_assistant o msgs
    (routeFromAssistant msgs', msgs')
  | (NodeA.retriever, msgs) =>
    let msgs' := msgs ++ vector_retriever o msgs
    (routeFromRetriever msgs', msgs')
  | (NodeA.websearch, msgs) => (NodeA.done, msgs ++ web_search_node o msgs)
  | (NodeA.generator, msgs) => (NodeA.done, msgs ++ generate_node o msgs)
  | (NodeA.rewriter, msgs) => (NodeA.assistant, msgs ++ rewrite_node o msgs)
  | (NodeA.done, msgs) => (NodeA.done, msgs)

/-- Iterated super-steps. -/
def stepsA (o : OracleA) : Nat → NodeA × List String → NodeA × List String
  | 0, s => s
  | n + 1, s => stepsA o n (stepA o s)

/-- The initial state of `app.invoke({"messages": [query]})` on a fresh
thread. -/
def initA (q : String) : NodeA × List String :=
  (NodeA.assistant, [q])

/-- The terminal state of a run (3 super-steps always reach END, proved
in `stepsA_three_done`). -/
def finalStateA (o : OracleA) (q : String) : NodeA × List String :=
  stepsA o 3 (initA q)

/-- `result["messages"][-1].content` in `run`. -/
def rawAnswerA (o : OracleA) (q : String) : String :=
  lastMsg (finalStateA o q).2

/-- `AgenticRAG.run` (variant A): the raw final content guarded by the
echo check. -/
def runA (o : OracleA) (q : String) : String :=
  if normalizeText (rawAnswerA o q) = normalizeText q then noInfoMsg q
  else rawAnswerA o q

/-! ## Variant B: `agentic_workflow_with_mcp_websearch.py` -/

/-- Outcome of calling an MCP tool from a node: the tool is missing, the
call raised, or it returned a string. -/
inductive McpOutcome where
  | noTool
  | err (e : String)
  | ok (result : String)
deriving DecidableEq, Repr

/-- The external collaborators of the MCP variant. -/
structure OracleB where
  mcpEnabled : Bool
  mcpHasTools : Bool
  mcpProductInfo : String → McpOutcome
  mcpWebSearch : String → McpOutcome
  retrieveB : String → List Doc
  directAnswer : String → String
  generate : String → String → String
  rewriteLLM : String → String

/-- `_ai_assistant` (variant B, same logic as variant A). -/
def ai_assistant_mcp (o : OracleB) (msgs : List String) : List String :=
  let last := lastMsg msgs
  if containsKeyword last then ["TOOL: retriever"]
  else [o.directAnswer last]

/-- `_vector_retriever` (variant B): MCP tool first (empty result text
becomes the fixed placeholder), falling back to regular retrieval when
MCP is disabled, the tool is missing, or the call raised. -/
def vector_retriever_mcp (o : OracleB) (msgs : List String) : List String :=
  let query := firstMsg msgs
  let regular := [format_docs (o.retrieveB query)]
  if o.mcpEnabled && o.mcpHasTools then
    match o.mcpProductInfo query with
    | McpOutcome.ok r => [if r = "" then "No MCP data found" else r]
    | McpOutcome.noTool => regular
    | McpOutcome.err _ => regular
  else regular

/-- `_web_search` (variant B): MCP web-search tool, else the fixed
apologetic fallback text. -/
def web_search_mcp (o : OracleB) (msgs : List String) : List String :=
  let query := firstMsg msgs
  let fallback :=
    ["I couldn\x27t perform a web search for \x27" ++ query ++
     "\x27 at the moment. Please try again later or check online manually."]
  if o.mcpEnabled && o.mcpHasTools then
    match o.mcpWebSearch query with
    | McpOutcome.ok r => [if r = "" then "No web search data found" else r]
    | McpOutcome.noTool => fallback
    | McpOutcome.err _ => fallback
  else fallback

/-- `_grade_documents` (variant B): the deterministic heuristic grader. -/
def grade_documents_mcp (msgs : List String) (retry : Nat) : Route :=
  let docs := lastMsg msgs
  if substr "search" (pyLower docs) || substr "iphone" (pyLower docs) ||
     substr "price" (pyLower docs) || decide ((pyStrip docs).length > 50) then
    Route.generator
  else if retry ≥ 1 then Route.generator
  else if (docs ≠ "" ∧ pyStrip docs ≠ "" ∧ substr "No" docs = false ∧
           (pyStrip docs).length > 10 : Prop) then Route.generator
  else Route.rewriter

/-- `_generate` (variant B): no indicator handling, no apology check. -/
def generate_mcp (o : OracleB) (msgs : List String) : List String :=
  [o.generate (lastMsg msgs) (firstMsg msgs)]

/-- `_rewrite` (variant B): at the ceiling (`retry_count >= 2`) return the
original query unchanged and leave the counter alone; otherwise rewrite
and increment.  Returns (appended messages, new retry count). -/
def rewrite_node_mcp (o : OracleB) (msgs : List String) (retry : Nat) :
    List String × Nat :=
  if retry ≥ 2 then ([firstMsg msgs], retry)
  else ([pyStrip (o.rewriteLLM (firstMsg msgs))], retry + 1)

/-- The graph nodes of variant B. -/
inductive NodeB where
  | assistant
  | retriever
  | generator
  | rewriter
  | websearch
  | done
deriving DecidableEq, Repr

/-- One LangGraph super-step of variant B.  State: (messages, retry
count).  Edges as in `_build_workflow`: Assistant's TOOL check, the
grader's conditional edge out of Retriever, and the fixed path
Rewriter -> WebSearch -> Generator -> END. -/
def stepB (o : OracleB) : NodeB × (List String × Nat) → NodeB × (List String × Nat)
  | (NodeB.assistant, (msgs, r)) =>
    let msgs' := msgs ++ ai_assistant_mcp o msgs
    (if substr "TOOL" (lastMsg msgs') then NodeB.retriever else NodeB.done, (msgs', r))
  | (NodeB.retriever, (msgs, r)) =>
    let msgs' := msgs ++ vector_retriever_mcp o msgs
    (match grade_documents_mcp msgs' r with
     | Route.generator => NodeB.generator
     | Route.rewriter => NodeB.rewriter, (msgs', r))
  | (NodeB.rewriter, (msgs, r)) =>
    let out := rewrite_node_mcp o msgs r
    (NodeB.websearch, (msgs ++ out.1, out.2))
  | (NodeB.websearch, (msgs, r)) => (NodeB.generator, (msgs ++ web_search_mcp o msgs, r))
  | (NodeB.generator, (msgs, r)) => (NodeB.done, (msgs ++ generate_mcp o msgs, r))
  | (NodeB.done, s) => (NodeB.done, s)

/-- Iterated super-steps of variant B. -/
def stepsB (o : OracleB) : Nat → NodeB × (List String × Nat) → NodeB × (List String × Nat)
  | 0, s => s
  | n + 1, s => stepsB o n (stepB o s)

/-- The initial state of `run` (variant B): the query message and
`retry_count = 0`. -/
def initB (q : String) : NodeB × (List String × Nat) :=
  (NodeB.assistant, ([q], 0))

/-! ## `normal_generation_workflow.py` -/

/-- `vector_retriever` of the normal workflow: it queries the index with
`state["messages"][-1].content` — the *last* message. -/
def vector_retriever_nw (retrieve : String → List Doc) (msgs : List String) : List String :=
  [format_docs (retrieve (lastMsg msgs))]

/-! ## Concrete service instantiations used by witnesses and
counterexamples -/

/-- A harmless retrieved record. -/
def docClean : Doc := ⟨some "iPhone 15", some "₹79,900", some "4.5", "Great phone"⟩

/-- A record whose review text contains the apology phrase "not found". -/
def docApology : Doc := ⟨some "iPhone 15", none, none, "Item not found in catalog"⟩

/-- Variant-A services: no Tavily key, empty vector index, echoing model. -/
def oNoKey : OracleA where
  directAnswer := fun q => q
  retrieve := fun _ => []
  tavilyKey := none
  tavilySearch := fun _ => Except.ok []
  generate := fun _ _ => "generated"
  rewriteLLM := fun q => q
  gradeLLM := fun _ _ => "yes"

/-- Variant-A services: good retrieval, but the generation model answers
with an apology phrase. -/
def oApology : OracleA where
  directAnswer := fun q => q
  retrieve := fun _ => [docClean]
  tavilyKey := none
  tavilySearch := fun _ => Except.ok []
  generate := fun _ _ => "Sorry, the price was not found."
  rewriteLLM := fun q => q
  gradeLLM := fun _ _ => "yes"

/-- Variant-A services: the vector index returns an apology-bearing
record. -/
def oApRet : OracleA where
  directAnswer := fun q => q
  retrieve := fun _ => [docApology]
  tavilyKey := none
  tavilySearch := fun _ => Except.ok []
  generate := fun _ _ => "generated"
  rewriteLLM := fun q => q
  gradeLLM := fun _ _ => "yes"

/-- Variant-A services: a direct model answer that happens to contain the
substring "TOOL". -/
def oTool : OracleA where
  directAnswer := fun _ => "TOOL time"
  retrieve := fun _ => []
  tavilyKey := none
  tavilySearch := fun _ => Except.ok []
  generate := fun _ _ => "generated"
  rewriteLLM := fun q => q
  gradeLLM := fun _ _ => "yes"

/-- Variant-A services: echoing model for the echo-guard witness. -/
def oEcho : OracleA where
  directAnswer := fun q => q
  retrieve := fun _ => []
  tavilyKey := none
  tavilySearch := fun _ => Except.ok []
  generate := fun _ _ => "generated"
  rewriteLLM := fun q => q
  gradeLLM := fun _ _ => "yes"

/-- Two Tavily results: the first without a price token, the second with
one. -/
def resultsW6 : List (Option TvRaw) :=
  [some ⟨some "Amazon", some "great deals today", some "http://a"⟩,
   some ⟨some "Flipkart", some "Buy at ₹64,900 today", some "http://x"⟩]

/-- Variant-A services with a Tavily key and the results above. -/
def oW6 : OracleA where
  directAnswer := fun q => q
  retrieve := fun _ => []
  tavilyKey := some "k"
  tavilySearch := fun _ => Except.ok resultsW6
  generate := fun _ _ => "generated"
  rewriteLLM := fun q => q
  gradeLLM := fun _ _ => "yes"

/-- Variant-B services used by the retry-ceiling witness. -/
def oBW : OracleB where
  mcpEnabled := false
  mcpHasTools := false
  mcpProductInfo := fun _ => McpOutcome.noTool
  mcpWebSearch := fun _ => McpOutcome.noTool
  retrieveB := fun _ => []
  directAnswer := fun q => q
  generate := fun _ _ => "generated"
  rewriteLLM := fun q => q

/-- A retrieval service for the normal workflow that distinguishes the
original query from the "TOOL: retriever" control message. -/
def rNW : String → List Doc :=
  fun s => if s = "TOOL: retriever" then [docClean] else []

/-- The state the normal workflow's retriever sees after the assistant
routed a product query. -/
def mNW : List String := ["what is the price of iPhone 15", "TOOL: retriever"]

/-! ## Normalization lemmas -/

lemma normChars_append (l₁ l₂ : List Char) :
    normChars (l₁ ++ l₂) = normChars l₁ ++ normChars l₂ := by
  simp [normChars, List.filter_append]

lemma isPySpace_not_alnum (c : Char) (h : isPySpace c = true) :
    c.isAlphanum = false := by
  simp only [isPySpace, Bool.or_eq_true, beq_iff_eq] at h
  rcases h with ((((h | h) | h) | h) | h) | h <;> subst h <;> decide

lemma normChars_spaces (l : List Char) (h : ∀ c ∈ l, isPySpace c = true) :
    normChars l = [] := by
  have hf : l.filter Char.isAlphanum = [] := by
    rw [List.filter_eq_nil_iff]
    intro a ha
    simp [isPySpace_not_alnum a (h a ha)]
  simp [normChars, hf]

lemma normChars_dropWhile (l : List Char) :
    normChars (l.dropWhile isPySpace) = normChars l := by
  conv_rhs => rw [← List.takeWhile_append_dropWhile isPySpace l]
  rw [normChars_append,
    normChars_spaces _ (fun c hc => List.mem_takeWhile_imp hc), List.nil_append]

lemma normChars_reverse (l : List Char) :
    normChars l.reverse = (normChars l).reverse := by
  simp [normChars, List.filter_reverse, List.map_reverse]

lemma normChars_pyStripList (l : List Char) :
    normChars (pyStripList l) = normChars l := by
  unfold pyStripList
  rw [normChars_reverse, normChars_dropWhile, normChars_reverse,
    List.reverse_reverse, normChars_dropWhile]

lemma normalizeText_pyStrip (s : String) :
    normalizeText (pyStrip s) = normalizeText s :=
  congrArg String.mk (normChars_pyStripList s.data)

lemma noInfo_data (q : String) : (normalizeText (noInfoMsg q)).data
    = normChars ("No price information found online for " : String).data
      ++ normChars q.data := by
  show normChars (noInfoMsg q).data = _
  unfold noInfoMsg
  rw [String.data_append, String.data_append, normChars_append, normChars_append]
  have h1 : normChars ("." : String).data = [] := rfl
  have h2 : normChars (pyStrip q).data = normChars q.data :=
    congrArg String.data (normalizeText_pyStrip q)
  rw [h1, h2, List.append_nil]

lemma noInfo_not_echo (q : String) :
    normalizeText (noInfoMsg q) ≠ normalizeText q := by
  intro h
  have h2 := congrArg (fun s => s.data.length) h
  simp only [noInfo_data, List.length_append] at h2
  have h3 : (normChars ("No price information found online for " : String).data).length = 32 := by
    decide
  have h4 : (normalizeText q).data.length = (normChars q.data).length := rfl
  rw [h3, h4] at h2
  omega

lemma ws_noInfo_not_echo (q : String) :
    normalizeText ("[Source: Web Search]\n" ++ noInfoMsg q) ≠ normalizeText q := by
  intro h
  have hd : (normalizeText ("[Source: Web Search]\n" ++ noInfoMsg q)).data
      = normChars ("[Source: Web Search]\n" : String).data
        ++ (normalizeText (noInfoMsg q)).data := by
    show normChars _ = _
    rw [String.data_append, normChars_append]
    rfl
  have h2 := congrArg (fun s => s.data.length) h
  simp only [hd, noInfo_data, List.length_append] at h2
  have h3 : (normChars ("[Source: Web Search]\n" : String).data).length = 15 := by decide
  have h4 : (normChars ("No price information found online for " : String).data).length = 32 := by
    decide
  have h5 : (normalizeText q).data.length = (normChars q.data).length := rfl
  rw [h3, h4, h5] at h2
  omega

/-! ## Step lemmas for variant A -/

lemma stepsA_succ (o : OracleA) (n : Nat) (s : NodeA × List String) :
    stepsA o (n + 1) s = stepsA o n (stepA o s) := rfl

lemma stepsA_three (o : OracleA) (s : NodeA × List String) :
    stepsA o 3 s = stepA o (stepA o (stepA o s)) := rfl

lemma stepsA_add (o : OracleA) (a : Nat) :
    ∀ (b : Nat) (s : NodeA × List String),
      stepsA o (b + a) s = stepsA o b (stepsA o a s) := by
  induction a with
  | zero => intro b s; rfl
  | succ n ih =>
    intro b s
    have h1 : b + (n + 1) = (b + n) + 1 := rfl
    rw [h1, stepsA_succ, ih b (stepA o s), stepsA_succ]

lemma stepsA_done (o : OracleA) (m : List String) :
    ∀ k, stepsA o k (NodeA.done, m) = (NodeA.done, m)
  | 0 => rfl
  | k + 1 => by
    rw [stepsA_succ]
    exact stepsA_done o m k

lemma assistant_step_keyword (o : OracleA) (q : String)
    (hk : containsKeyword q = true) :
    stepA o (initA q) = (NodeA.retriever, [q, "TOOL: retriever"]) := by
  have hsub : substr "TOOL" "TOOL: retriever" = true := by decide
  simp [initA, stepA, ai_assistant, lastMsg, hk, routeFromAssistant, hsub]

lemma assistant_step_direct (o : OracleA) (q : String)
    (hk : containsKeyword q = false)
    (ht : substr "TOOL" (o.directAnswer q) = false) :
    stepA o (initA q) = (NodeA.done, [q, o.directAnswer q]) := by
  simp [initA, stepA, ai_assistant, lastMsg, hk, routeFromAssistant, ht]

lemma retriever_step_empty (o : OracleA) (msgs : List String)
    (hd : o.retrieve (firstMsg msgs) = []) :
    stepA o (NodeA.retriever, msgs)
      = (NodeA.websearch, msgs ++ ["TOOL: websearch", firstMsg msgs]) := by
  have hmem : msgsContain (msgs ++ ["TOOL: websearch", firstMsg msgs])
      "TOOL: websearch" = true := by
    simp [msgsContain]
  simp [stepA, vector_retriever, hd, routeFromRetriever, hmem]

lemma retriever_step_apology (o : OracleA) (msgs : List String)
    (hd : o.retrieve (firstMsg msgs) ≠ [])
    (ha : containsApology (format_docs (o.retrieve (firstMsg msgs))) = true) :
    stepA o (NodeA.retriever, msgs)
      = (NodeA.websearch, msgs ++ ["TOOL: websearch", firstMsg msgs]) := by
  have hmem : msgsContain (msgs ++ ["TOOL: websearch", firstMsg msgs])
      "TOOL: websearch" = true := by
    simp [msgsContain]
  simp [stepA, vector_retriever, hd, ha, routeFromRetriever, hmem]

lemma dbTag_ne_toolWS (c : String) :
    ("[Source: Database]\n" ++ c) ≠ "TOOL: websearch" := by
  intro h
  have h2 := congrArg String.data h
  rw [String.data_append] at h2
  have h3 : ("[Source: Database]\n" : String).data
      = '[' :: ("Source: Database]\n" : String).data := rfl
  have h4 : ("TOOL: websearch" : String).data
      = 'T' :: ("OOL: websearch" : String).data := rfl
  rw [h3, h4, List.cons_append] at h2
  injection h2 with h5 _
  exact absurd h5 (by decide)

lemma retriever_step_clean (o : OracleA) (q : String)
    (hk : containsKeyword q = true)
    (hd : o.retrieve q ≠ [])
    (ha : containsApology (format_docs (o.retrieve q)) = false) :
    stepA o (NodeA.retriever, [q, "TOOL: retriever"])
      = (NodeA.generator,
         [q, "TOOL: retriever", "[Source: Database]\n" ++ format_docs (o.retrieve q)]) := by
  have h1 : (q == "TOOL: websearch") = false := by
    apply beq_eq_false_iff_ne.mpr
    intro h
    rw [h] at hk
    exact absurd hk (by decide)
  have h2 : (("[Source: Database]\n" ++ format_docs (o.retrieve q)) == "TOOL: websearch") = false :=
    beq_eq_false_iff_ne.mpr (dbTag_ne_toolWS _)
  have hmem : msgsContain
      [q, "TOOL: retriever", "[Source: Database]\n" ++ format_docs (o.retrieve q)]
      "TOOL: websearch" = false := by
    simp [msgsContain, h1, h2]
  simp [stepA, vector_retriever, firstMsg, hd, ha, routeFromRetriever, hmem]

lemma generator_step_apology (o : OracleA) (msgs : List String)
    (ha : containsApology (genFinalResponse o (firstMsg msgs) (lastMsg msgs)) = true) :
    stepA o (NodeA.generator, msgs)
      = (NodeA.done, msgs ++ ["TOOL: websearch", firstMsg msgs]) := by
  simp [stepA, generate_node, ha]

lemma websearch_step_nokey (o : OracleA) (msgs : List String)
    (hkey : o.tavilyKey = none) :
    stepA o (NodeA.websearch, msgs)
      = (NodeA.done, msgs ++ ["[Source: Web Search]\n" ++ noInfoMsg (firstMsg msgs)]) := by
  have hws : web_search o (firstMsg msgs) = "Web search failed: API key not set." := by
    simp [web_search, hkey]
  have hsub : substr "web search failed"
      (pyLower "Web search failed: API key not set.") = true := by decide
  simp [stepA, web_search_node, hws, hsub]

/-! ## Structural lemmas for variant A -/

lemma stepA_fst_ne_rewriter (o : OracleA) (s : NodeA × List String) :
    (stepA o s).1 ≠ NodeA.rewriter := by
  obtain ⟨n, msgs⟩ := s
  cases n <;> simp [stepA, routeFromAssistant, routeFromRetriever] <;> split <;> simp

lemma stepA_appends (o : OracleA) (s : NodeA × List String) :
    ∃ new, (stepA o s).2 = s.2 ++ new := by
  obtain ⟨n, msgs⟩ := s
  cases n
  case assistant => exact ⟨ai_assistant o msgs, rfl⟩
  case retriever => exact ⟨vector_retriever o msgs, rfl⟩
  case websearch => exact ⟨web_search_node o msgs, rfl⟩
  case generator => exact ⟨generate_node o msgs, rfl⟩
  case rewriter => exact ⟨rewrite_node o msgs, rfl⟩
  case done => exact ⟨[], (List.append_nil msgs).symm⟩

lemma firstMsg_append (l m : List String) (h : l ≠ []) :
    firstMsg (l ++ m) = firstMsg l := by
  cases l with
  | nil => exact absurd rfl h
  | cons a t => rfl

/-! ## Structural lemmas for variant B -/

lemma stepsB_succ (o : OracleB) (n : Nat) (s : NodeB × (List String × Nat)) :
    stepsB o (n + 1) s = stepsB o n (stepB o s) := rfl

lemma stepB_retry_le (o : OracleB) (s : NodeB × (List String × Nat))
    (h : s.2.2 ≤ 2) : (stepB o s).2.2 ≤ 2 := by
  obtain ⟨n, msgs, r⟩ := s
  cases n <;> simp [stepB] at h ⊢
  case assistant => exact h
  case retriever => exact h
  case generator => exact h
  case websearch => exact h
  case done => exact h
  case rewriter =>
    unfold rewrite_node_mcp
    split
    · exact h
    · omega

/-! ## Characterization of the Tavily result scan -/

lemma scanResults_spec : ∀ (l : List (Option TvRaw)) (best : Option String),
    scanResults l best =
      match (usableOf l).find? hasPrice with
      | some r =>
        pricedFmt (r.title.getD "Web Result") ((extractPrice (r.content.getD "")).getD "")
          (r.content.getD "") (r.url.getD "")
      | none =>
        match best with
        | some b => b
        | none =>
          match (usableOf l).head? with
          | some r => fallbackFmt (r.title.getD "Web Result") (r.content.getD "") (r.url.getD "")
          | none => ""
  | [], best => by cases best <;> rfl
  | Option.none :: rest, best => by
    have h1 : usableOf (Option.none :: rest) = usableOf rest := by
      simp [usableOf]
    rw [show scanResults (Option.none :: rest) best = scanResults rest best from rfl, h1]
    exact scanResults_spec rest best
  | Option.some r :: rest, best => by
    have h1 : usableOf (Option.some r :: rest) = r :: usableOf rest := by
      simp [usableOf]
    rw [h1]
    cases hp : extractPrice (r.content.getD "") with
    | some p =>
      have hpr : hasPrice r = true := by simp [hasPrice, hp]
      rw [List.find?_cons_of_pos _ hpr]
      simp only [scanResults, hp, Option.getD_some]
    | none =>
      have hpr : ¬ (hasPrice r = true) := by simp [hasPrice, hp]
      rw [List.find?_cons_of_neg _ hpr]
      have hstep : scanResults (Option.some r :: rest) best
          = scanResults rest
              (match best with
               | some b => some b
               | none => some (fallbackFmt (r.title.getD "Web Result") (r.content.getD "")
                   (r.url.getD ""))) := by
        simp only [scanResults, hp]
      rw [hstep, scanResults_spec rest _]
      cases hf : (usableOf rest).find? hasPrice with
      | some r' => rfl
      | none => cases best <;> rfl

/-! ## Claim theorems -/

/-- C1: across a single run of the MCP workflow the retry counter never
exceeds the ceiling of 2; the Rewriter increments `retry_count` on each
actual rewrite pass, and once `retry_count` has reached 2 the Rewriter
returns the original query unchanged (counter untouched) and the run
proceeds through WebSearch and Generator to the end. -/
theorem rewrite_ceiling :
    (∀ (o : OracleB) (q : String) (k : Nat), (stepsB o k (initB q)).2.2 ≤ 2) ∧
    (∀ (o : OracleB) (msgs : List String) (r : Nat), 2 ≤ r →
       rewrite_node_mcp o msgs r = ([firstMsg msgs], r)) ∧
    (∀ (o : OracleB) (msgs : List String) (r : Nat), r < 2 →
       rewrite_node_mcp o msgs r = ([pyStrip (o.rewriteLLM (firstMsg msgs))], r + 1)) ∧
    (∀ (o : OracleB) (s : List String × Nat), (stepB o (NodeB.rewriter, s)).1 = NodeB.websearch) ∧
    (∀ (o : OracleB) (s : List String × Nat), (stepB o (NodeB.websearch, s)).1 = NodeB.generator) ∧
    (∀ (o : OracleB) (s : List String × Nat), (stepB o (NodeB.generator, s)).1 = NodeB.done) := by
  refine ⟨?_, ?_, ?_, ?_, ?_, ?_⟩
  · intro o q k
    have key : ∀ (n : Nat) (s : NodeB × (List String × Nat)),
        s.2.2 ≤ 2 → (stepsB o n s).2.2 ≤ 2 := by
      intro n
      induction n with
      | zero => intro s h; exact h
      | succ m ih => intro s h; exact ih (stepB o s) (stepB_retry_le o s h)
    exact key k (initB q) (by simp [initB])
  · intro o msgs r h
    unfold rewrite_node_mcp
    rw [if_pos h]
  · intro o msgs r h
    unfold rewrite_node_mcp
    rw [if_neg (by omega)]
  · intro o s; rfl
  · intro o s; rfl
  · intro o s; rfl

/-- Witness for C1 at concrete inputs: a full run keeps the counter at
most 2, the Rewriter at the ceiling echoes the original query without
incrementing, and below the ceiling it rewrites and increments. -/
theorem rewrite_ceiling_witness :
    (stepsB oBW 5 (initB "price of iPhone 15")).2.2 ≤ 2 ∧
    rewrite_node_mcp oBW ["q0"] 2 = ([firstMsg ["q0"]], 2) ∧
    rewrite_node_mcp oBW ["q0"] 0 = ([pyStrip (oBW.rewriteLLM (firstMsg ["q0"]))], 1) ∧
    (stepB oBW (NodeB.rewriter, (["q0"], 2))).1 = NodeB.websearch :=
  ⟨rewrite_ceiling.1 oBW "price of iPhone 15" 5,
   rewrite_ceiling.2.1 oBW ["q0"] 2 (by decide),
   rewrite_ceiling.2.2.1 oBW ["q0"] 0 (by decide),
   rewrite_ceiling.2.2.2.1 oBW (["q0"], 2)⟩

/-- C2 counterexample: with good retrieval and a generation answer
containing the apology phrase "not found", the run goes
Assistant -> Retriever -> Generator -> END and never transitions to
WebSearch — the step after Generator is terminal, and the terminal state
is a fixpoint — contradicting the claim that the controller escalates to
the web-search path whenever generated output contains an apology
phrase. -/
theorem generator_apology_no_escalation :
    containsApology
      (genFinalResponse oApology "price of iPhone 15"
        (lastMsg (stepsA oApology 2 (initA "price of iPhone 15")).2)) = true ∧
    (stepsA oApology 2 (initA "price of iPhone 15")).1 = NodeA.generator ∧
    (stepsA oApology 3 (initA "price of iPhone 15")).1 = NodeA.done ∧
    stepA oApology (stepsA oApology 3 (initA "price of iPhone 15"))
      = stepsA oApology 3 (initA "price of iPhone 15") := by decide

/-- C2 amended: if the *retrieved* context contains an apology phrase the
Retriever step escalates to WebSearch; if instead the *generated* output
contains an apology phrase, the run terminates right after the Generator
without ever visiting WebSearch, and the public `run` returns the
deterministic no-information message (the `run`-level echo guard fires on
the echoed question), so the apology text is still never the final
answer. -/
theorem apology_escalation :
    (∀ (o : OracleA) (msgs : List String),
       o.retrieve (firstMsg msgs) ≠ [] →
       containsApology (format_docs (o.retrieve (firstMsg msgs))) = true →
       (stepA o (NodeA.retriever, msgs)).1 = NodeA.websearch) ∧
    (∀ (o : OracleA) (q : String),
       containsKeyword q = true →
       o.retrieve q ≠ [] →
       containsApology (format_docs (o.retrieve q)) = false →
       containsApology (genFinalResponse o q
         ("[Source: Database]\n" ++ format_docs (o.retrieve q))) = true →
       (∀ k, (stepsA o k (initA q)).1 ≠ NodeA.websearch) ∧
       runA o q = noInfoMsg q) := by
  constructor
  · intro o msgs hd ha
    rw [retriever_step_apology o msgs hd ha]
  · intro o q hk hd ha hgen
    have s1 := assistant_step_keyword o q hk
    have s2 := retriever_step_clean o q hk hd ha
    have s3 : stepA o (NodeA.generator,
        [q, "TOOL: retriever", "[Source: Database]\n" ++ format_docs (o.retrieve q)])
        = (NodeA.done,
           [q, "TOOL: retriever", "[Source: Database]\n" ++ format_docs (o.retrieve q),
            "TOOL: websearch", q]) := by
      have := generator_step_apology o
        [q, "TOOL: retriever", "[Source: Database]\n" ++ format_docs (o.retrieve q)]
        (by simpa [firstMsg, lastMsg] using hgen)
      simpa [firstMsg] using this
    have efin : stepsA o 3 (initA q)
        = (NodeA.done,
           [q, "TOOL: retriever", "[Source: Database]\n" ++ format_docs (o.retrieve q),
            "TOOL: websearch", q]) := by
      rw [stepsA_three, s1, s2, s3]
    constructor
    · intro k
      rcases k with _ | k
      · simp [stepsA, initA]
      rcases k with _ | k
      · rw [show stepsA o 1 (initA q) = stepA o (initA q) from rfl, s1]
        simp
      rcases k with _ | k
      · rw [show stepsA o 2 (initA q) = stepA o (stepA o (initA q)) from rfl, s1, s2]
        simp
      · show (stepsA o (k + 3) (initA q)).1 ≠ NodeA.websearch
        rw [stepsA_add o 3 k (initA q), efin, stepsA_done]
        simp
    · have hraw : rawAnswerA o q = q := by
        unfold rawAnswerA finalStateA
        rw [efin]
        rfl
      unfold runA
      rw [hraw, if_pos rfl]

/-- Witness for C2 at concrete inputs: the retrieval-side escalation on an
apology-bearing context, and the generation-side substitution of the
no-information message. -/
theorem apology_escalation_witness :
    (stepA oApRet (NodeA.retriever, ["price of iPhone 15", "TOOL: retriever"])).1
      = NodeA.websearch ∧
    runA oApology "price of iPhone 15" = noInfoMsg "price of iPhone 15" :=
  ⟨apology_escalation.1 oApRet ["price of iPhone 15", "TOOL: retriever"]
      (by decide) (by decide),
   (apology_escalation.2 oApology "price of iPhone 15"
      (by decide) (by decide) (by decide) (by decide)).2⟩

/-- C3 counterexample: the query "hi" contains no product keyword, yet
when the model's direct answer happens to contain the substring "TOOL"
the conditional edge out of Assistant routes the run to the Retriever —
contradicting the claim that keyword-free queries never invoke the
retriever. -/
theorem direct_answer_tool_routes :
    containsKeyword "hi" = false ∧
    (stepsA oTool 1 (initA "hi")).1 = NodeA.retriever := by decide

/-- C3 amended: every query containing one of "price"/"review"/"product"
is routed to the Retriever (the Assistant emits only the control message,
no direct answer); every keyword-free query gets a direct model answer,
and, provided that answer does not contain the substring "TOOL", the run
terminates immediately with it, never visiting the retriever or web
search. -/
theorem keyword_routing :
    (∀ (o : OracleA) (q : String), containsKeyword q = true →
       stepsA o 1 (initA q) = (NodeA.retriever, [q, "TOOL: retriever"])) ∧
    (∀ (o : OracleA) (q : String) (k : Nat), containsKeyword q = false →
       substr "TOOL" (o.directAnswer q) = false → 1 ≤ k →
       stepsA o k (initA q) = (NodeA.done, [q, o.directAnswer q])) := by
  constructor
  · intro o q hk
    exact assistant_step_keyword o q hk
  · intro o q k hk ht hle
    obtain ⟨j, rfl⟩ : ∃ j, k = j + 1 := ⟨k - 1, by omega⟩
    rw [stepsA_succ, assistant_step_direct o q hk ht]
    exact stepsA_done o _ j

/-- Witness for C3 at concrete inputs: a keyword query reaches the
Retriever; a keyword-free query with a TOOL-free direct answer terminates
immediately with that answer. -/
theorem keyword_routing_witness :
    stepsA oNoKey 1 (initA "price of iPhone 15")
      = (NodeA.retriever, ["price of iPhone 15", "TOOL: retriever"]) ∧
    stepsA oNoKey 1 (initA "hello")
      = (NodeA.done, ["hello", oNoKey.directAnswer "hello"]) :=
  ⟨keyword_routing.1 oNoKey "price of iPhone 15" (by decide),
   keyword_routing.2 oNoKey "hello" 1 (by decide) (by decide) (by decide)⟩

/-- C4: whenever the raw final content of a run, normalized
(alphanumeric-only, lowercased), equals the normalized input query, `run`
returns exactly "No price information found online for {query, trimmed}."
and never the raw echo itself. -/
theorem echo_guard :
    ∀ (o : OracleA) (q : String),
      normalizeText (rawAnswerA o q) = normalizeText q →
      runA o q = noInfoMsg q ∧ runA o q ≠ rawAnswerA o q := by
  intro o q h
  have h1 : runA o q = noInfoMsg q := by
    unfold runA
    rw [if_pos h]
  refine ⟨h1, ?_⟩
  rw [h1]
  intro h2
  have h3 : normalizeText (noInfoMsg q) = normalizeText q := by rw [h2, h]
  exact noInfo_not_echo q h3

/-- Witness for C4: an echoing model on a keyword-free query makes the
raw final content equal the query, and `run` substitutes the
deterministic message. -/
theorem echo_guard_witness :
    runA oEcho "hello" = noInfoMsg "hello" ∧ runA oEcho "hello" ≠ rawAnswerA oEcho "hello" :=
  echo_guard oEcho "hello" (by decide)

/-- C5 counterexample: with the web-search credential absent and an empty
vector index, the final answer carries the "[Source: Web Search]"
indicator prefix, so it does not *equal* the bare deterministic
no-information message the claim states. -/
theorem no_key_final_not_bare :
    runA oNoKey "what is the price of iPhone 15"
      = "[Source: Web Search]\n" ++ noInfoMsg "what is the price of iPhone 15" ∧
    runA oNoKey "what is the price of iPhone 15"
      ≠ noInfoMsg "what is the price of iPhone 15" := by decide

/-- C5 amended: when the web-search credential is absent and the vector
index returns zero records for a product-keyword query, `web_search`
returns the explicit failure text instead of raising, and the run's final
answer is the web-search indicator tag followed by the deterministic
no-information message (no exception: every function here is total). -/
theorem websearch_degraded_path :
    ∀ (o : OracleA) (q : String),
      containsKeyword q = true → o.tavilyKey = none → o.retrieve q = [] →
      web_search o q = "Web search failed: API key not set." ∧
      runA o q = "[Source: Web Search]\n" ++ noInfoMsg q := by
  intro o q hk hkey hd
  constructor
  · simp [web_search, hkey]
  · have s1 := assistant_step_keyword o q hk
    have s2 : stepA o (NodeA.retriever, [q, "TOOL: retriever"])
        = (NodeA.websearch, [q, "TOOL: retriever", "TOOL: websearch", q]) := by
      have := retriever_step_empty o [q, "TOOL: retriever"] hd
      simpa [firstMsg] using this
    have s3 : stepA o (NodeA.websearch, [q, "TOOL: retriever", "TOOL: websearch", q])
        = (NodeA.done,
           [q, "TOOL: retriever", "TOOL: websearch", q,
            "[Source: Web Search]\n" ++ noInfoMsg q]) := by
      have := websearch_step_nokey o [q, "TOOL: retriever", "TOOL: websearch", q] hkey
      simpa [firstMsg] using this
    have efin : finalStateA o q
        = (NodeA.done,
           [q, "TOOL: retriever", "TOOL: websearch", q,
            "[Source: Web Search]\n" ++ noInfoMsg q]) := by
      unfold finalStateA
      rw [stepsA_three, s1, s2, s3]
    have hraw : rawAnswerA o q = "[Source: Web Search]\n" ++ noInfoMsg q := by
      unfold rawAnswerA
      rw [efin]
      rfl
    unfold runA
    rw [hraw, if_neg (ws_noInfo_not_echo q)]

/-- Witness for C5 at a concrete input. -/
theorem websearch_degraded_path_witness :
    web_search oNoKey "what is the price of iPhone 15"
      = "Web search failed: API key not set." ∧
    runA oNoKey "what is the price of iPhone 15"
      = "[Source: Web Search]\n" ++ noInfoMsg "what is the price of iPhone 15" :=
  websearch_degraded_path oNoKey "what is the price of iPhone 15"
    (by decide) rfl rfl

/-- C6: for every result list the Tavily search yields (credential
present, call successful), `web_search` returns the price-formatted form
of the first usable result whose content matches one of the price
patterns (tested inside `extractPrice` in the fixed order ₹, Rs, INR, $);
if no usable result has a price token, the fallback form (title, content,
source — no price field) of the first usable result; and the empty string
when there are no results or none are usable. -/
theorem websearch_selection :
    ∀ (o : OracleA) (q key : String) (results : List (Option TvRaw)),
      o.tavilyKey = some key →
      o.tavilySearch (q ++ " price in India") = Except.ok results →
      web_search o q =
        match (usableOf results).find? hasPrice with
        | some r =>
          pricedFmt (r.title.getD "Web Result") ((extractPrice (r.content.getD "")).getD "")
            (r.content.getD "") (r.url.getD "")
        | none =>
          match (usableOf results).head? with
          | some r => fallbackFmt (r.title.getD "Web Result") (r.content.getD "") (r.url.getD "")
          | none => "" := by
  intro o q key results hkey hsearch
  unfold web_search
  rw [hkey, hsearch]
  cases results with
  | nil => rfl
  | cons r rest =>
    show (if (r :: rest : List (Option TvRaw)) = [] then ""
          else scanResults (r :: rest) none) = _
    rw [if_neg (by simp), scanResults_spec (r :: rest) none]

/-- Witness for C6: two results, the first without a price token, the
second containing "₹64,900" — the second is selected and formatted with
its price. -/
theorem websearch_selection_witness :
    web_search oW6 "iPhone 15"
      = "Title: Flipkart\nPrice: ₹64,900\nDetails: Buy at ₹64,900 today\nSource: http://x" :=
  (websearch_selection oW6 "iPhone 15" "k" resultsW6 rfl rfl).trans (by decide)

/-- C7 counterexample: in `normal_generation_workflow.py` the retriever
node queries the index with the *last* message.  With the state the
assistant produces for a product query, a retrieval service that returns
nothing for the original query still determines the node's output through
its value at "TOOL: retriever" — so the node does not query with the
original user query. -/
theorem nw_retriever_uses_last :
    vector_retriever_nw rNW mNW ≠ [format_docs (rNW (firstMsg mNW))] := by decide

/-- C7 amended: the retriever nodes of `agentic_rag_workflow.py` and of
the MCP variant depend on the retrieval services only through their value
at the original (first) message, so they always query with the original
user query; the retriever of `normal_generation_workflow.py` instead
depends on the service only through its value at the *last* message,
which is the control message "TOOL: retriever" when the assistant routed
a product query. -/
theorem retriever_query_source :
    (∀ (o o' : OracleA) (msgs : List String),
       o.retrieve (firstMsg msgs) = o'.retrieve (firstMsg msgs) →
       vector_retriever o msgs = vector_retriever o' msgs) ∧
    (∀ (o o' : OracleB) (msgs : List String),
       o.mcpEnabled = o'.mcpEnabled →
       o.mcpHasTools = o'.mcpHasTools →
       o.mcpProductInfo (firstMsg msgs) = o'.mcpProductInfo (firstMsg msgs) →
       o.retrieveB (firstMsg msgs) = o'.retrieveB (firstMsg msgs) →
       vector_retriever_mcp o msgs = vector_retriever_mcp o' msgs) ∧
    (∀ (r₁ r₂ : String → List Doc) (msgs : List String),
       r₁ (lastMsg msgs) = r₂ (lastMsg msgs) →
       vector_retriever_nw r₁ msgs = vector_retriever_nw r₂ msgs) := by
  refine ⟨?_, ?_, ?_⟩
  · intro o o' msgs h
    simp only [vector_retriever, h]
  · intro o o' msgs h1 h2 h3 h4
    simp only [vector_retriever_mcp, h1, h2, h3, h4]
  · intro r₁ r₂ msgs h
    simp only [vector_retriever_nw, h]

/-- Witness for C7 at concrete inputs: two services agreeing at the
original query give identical variant-A retriever output, and two
services agreeing at the last message give identical normal-workflow
output. -/
theorem retriever_query_source_witness :
    vector_retriever oNoKey mNW = vector_retriever oEcho mNW ∧
    vector_retriever_nw rNW mNW = vector_retriever_nw rNW mNW :=
  ⟨retriever_query_source.1 oNoKey oEcho mNW rfl,
   retriever_query_source.2.2 rNW rNW mNW rfl⟩

/-- C8 counterexample: in `agentic_rag_workflow.py` a run that visits
WebSearch terminates at the very next step — the edge added in
`_build_workflow` is `WebSearch -> END`, not `WebSearch -> Generator`. -/
theorem websearch_then_end :
    (stepsA oNoKey 2 (initA "price of iPhone 15")).1 = NodeA.websearch ∧
    (stepsA oNoKey 3 (initA "price of iPhone 15")).1 = NodeA.done ∧
    stepA oNoKey (stepsA oNoKey 3 (initA "price of iPhone 15"))
      = stepsA oNoKey 3 (initA "price of iPhone 15") := by decide

/-- C8 amended: in the MCP variant, every execution of WebSearch is
followed by the Generator; in the `agentic_rag_workflow.py` variant,
WebSearch transitions directly to END (its output is the run's final
message, without a generation step). -/
theorem websearch_successor :
    (∀ (o : OracleB) (s : List String × Nat),
       (stepB o (NodeB.websearch, s)).1 = NodeB.generator) ∧
    (∀ (o : OracleA) (msgs : List String),
       (stepA o (NodeA.websearch, msgs)).1 = NodeA.done) :=
  ⟨fun _ _ => rfl, fun _ _ => rfl⟩

/-- C9: in `agentic_rag_workflow.py` every super-step only appends to the
message sequence, and in every reachable state of a single run the first
message is the original user query — so any node reading the question
from the first message reads the original query. -/
theorem first_message_invariant :
    (∀ (o : OracleA) (s : NodeA × List String),
       ∃ new, (stepA o s).2 = s.2 ++ new) ∧
    (∀ (o : OracleA) (q : String) (k : Nat),
       (stepsA o k (initA q)).2 ≠ [] ∧ firstMsg (stepsA o k (initA q)).2 = q) := by
  constructor
  · exact stepA_appends
  · intro o q k
    have key : ∀ (n : Nat) (s : NodeA × List String),
        s.2 ≠ [] → firstMsg s.2 = q →
        (stepsA o n s).2 ≠ [] ∧ firstMsg (stepsA o n s).2 = q := by
      intro n
      induction n with
      | zero => intro s h1 h2; exact ⟨h1, h2⟩
      | succ m ih =>
        intro s h1 h2
        obtain ⟨new, hnew⟩ := stepA_appends o s
        have hne : (stepA o s).2 ≠ [] := by
          rw [hnew]
          intro hcontra
          exact h1 (List.append_eq_nil.mp hcontra).1
        have hfm : firstMsg (stepA o s).2 = q := by
          rw [hnew, firstMsg_append s.2 new h1, h2]
        exact ih (stepA o s) hne hfm
    exact key k (initA q) (by simp [initA]) (by simp [initA, firstMsg])

/-- C10: in `agentic_rag_workflow.py` the rewrite path is unreachable:
the conditional edge out of Retriever only ever selects WebSearch or
Generator (so the mapping's "rewriter" entry — and with it the
`_grade_documents` grader, which the edge lambda never calls — is dead),
and no reachable state of a run is at the Rewriter node. -/
theorem rewriter_unreachable :
    (∀ msgs : List String,
       routeFromRetriever msgs = NodeA.websearch ∨
       routeFromRetriever msgs = NodeA.generator) ∧
    (∀ (o : OracleA) (q : String) (k : Nat),
       (stepsA o k (initA q)).1 ≠ NodeA.rewriter) := by
  constructor
  · intro msgs
    unfold routeFromRetriever
    split
    · exact Or.inl rfl
    · exact Or.inr rfl
  · intro o q k
    have key : ∀ (n : Nat) (s : NodeA × List String),
        s.1 ≠ NodeA.rewriter → (stepsA o n s).1 ≠ NodeA.rewriter := by
      intro n
      induction n with
      | zero => intro s h; exact h
      | succ m ih => intro s _; exact ih (stepA o s) (stepA_fst_ne_rewriter o s)
    exact key k (initA q) (by simp [initA])
